import Mathlib

/-!
Shallow embedding of the twyg log sink and formatter (src/src/logger.rs,
src/src/level.rs, src/src/color.rs, src/src/output.rs, src/src/opts.rs),
together with theorems checking the specification's claims about it.

Conventions of the embedding:
* The wall-clock timestamp (`chrono::Local::now().format(..)`) is external
  I/O; rendering functions take the already-formatted timestamp string as a
  parameter `now`.
* The backing writers (stdout / stderr / buffered file) are modelled as a
  `WriterState` recording the bytes written so far and the number of flushes;
  an I/O write failure is injected as an `Option String` parameter
  (`none` = the write succeeds, `some e` = the write fails with error `e`),
  mirroring `io::Result`.
* The owo-colors global override is always set by `Logger::new` via
  `owo_colors::set_override(opts.coloured())`, so `if_supports_color` reduces
  to consulting that override; it is threaded through as the Boolean
  `colorOverride` field of the configuration.
-/

namespace Twyg

/-- Event severity from the external `log` crate: `log::Level`, five values.
The crate's numeric representation is Error = 1 .. Trace = 5. -/
inductive Level where
  | Error
  | Warn
  | Info
  | Debug
  | Trace
deriving DecidableEq

/-- Numeric representation of `log::Level` (Error = 1 .. Trace = 5),
used by its `PartialOrd` comparison against `LevelFilter`. -/
def Level.toNat : Level → Nat
  | .Error => 1
  | .Warn => 2
  | .Info => 3
  | .Debug => 4
  | .Trace => 5

/-- All five `log::Level` values. -/
def Level.all : List Level :=
  [.Error, .Warn, .Info, .Debug, .Trace]

/-- Display form of `log::Level` (uppercase, `LOG_LEVEL_NAMES`). -/
def Level.display : Level → String
  | .Error => "ERROR"
  | .Warn => "WARN"
  | .Info => "INFO"
  | .Debug => "DEBUG"
  | .Trace => "TRACE"

/-- Severity rank in the spec's order Trace < Debug < Info < Warn < Error. -/
def Level.severity : Level → Nat
  | .Trace => 0
  | .Debug => 1
  | .Info => 2
  | .Warn => 3
  | .Error => 4

/-- Filter threshold from the external `log` crate: `log::LevelFilter`,
numeric representation Off = 0 .. Trace = 5. -/
inductive LevelFilter where
  | Off
  | Error
  | Warn
  | Info
  | Debug
  | Trace
deriving DecidableEq

/-- Numeric representation of `log::LevelFilter` (Off = 0 .. Trace = 5). -/
def LevelFilter.toNat : LevelFilter → Nat
  | .Off => 0
  | .Error => 1
  | .Warn => 2
  | .Info => 3
  | .Debug => 4
  | .Trace => 5

/-- The repository's own level enum `twyg::LogLevel` (src/src/level.rs,
lines 23-38): six variants, `Fatal` included. -/
inductive LogLevel where
  | Trace
  | Debug
  | Info
  | Warn
  | Error
  | Fatal
deriving DecidableEq

/-- All `LogLevel` values in declaration order (`LogLevel::all`). -/
def LogLevel.all : List LogLevel :=
  [.Trace, .Debug, .Info, .Warn, .Error, .Fatal]

/-- Conversion `impl From<LogLevel> for LevelFilter` (src/src/level.rs,
lines 118-128): `Fatal` is mapped to `LevelFilter::Error`. -/
def LogLevel.toLevelFilter : LogLevel → LevelFilter
  | .Trace => .Trace
  | .Debug => .Debug
  | .Info => .Info
  | .Warn => .Warn
  | .Error => .Error
  | .Fatal => .Error

/-- Severity rank of a threshold in the spec's five-value order
(Trace < Debug < Info < Warn < Error); `Fatal` sits above `Error`. -/
def LogLevel.severity : LogLevel → Nat
  | .Trace => 0
  | .Debug => 1
  | .Info => 2
  | .Warn => 3
  | .Error => 4
  | .Fatal => 5

/-- Output destination `twyg::Output` (src/src/output.rs). -/
inductive Output where
  | Stdout
  | Stderr
  | File (path : String)
deriving DecidableEq

/-- The owo-colors stream tag (`owo_colors::Stream`), as selected by
`impl From<&Output> for Stream`: files are tagged as stdout. -/
inductive OutStream where
  | Stdout
  | Stderr
deriving DecidableEq

/-- Conversion `impl From<&Output> for Stream` (src/src/output.rs). -/
def Output.toStream : Output → OutStream
  | .Stdout => .Stdout
  | .File _ => .Stdout
  | .Stderr => .Stderr

/-- Color attribute `twyg::ColorAttribute` (src/src/color.rs, 17 variants). -/
inductive ColorAttribute where
  | Reset
  | Black
  | Red
  | Green
  | Yellow
  | Blue
  | Magenta
  | Cyan
  | White
  | HiBlack
  | HiRed
  | HiGreen
  | HiYellow
  | HiBlue
  | HiMagenta
  | HiCyan
  | HiWhite
deriving DecidableEq

/-- ANSI foreground code chosen by owo-colors for each attribute
(30-37 standard, 90-97 bright; `Reset` never styles so its code is unused). -/
def ColorAttribute.fgCode : ColorAttribute → Nat
  | .Reset => 0
  | .Black => 30
  | .Red => 31
  | .Green => 32
  | .Yellow => 33
  | .Blue => 34
  | .Magenta => 35
  | .Cyan => 36
  | .White => 37
  | .HiBlack => 90
  | .HiRed => 91
  | .HiGreen => 92
  | .HiYellow => 93
  | .HiBlue => 94
  | .HiMagenta => 95
  | .HiCyan => 96
  | .HiWhite => 97

/-- ANSI background code chosen by owo-colors for each attribute
(40-47 standard, 100-107 bright). -/
def ColorAttribute.bgCode : ColorAttribute → Nat
  | .Reset => 0
  | .Black => 40
  | .Red => 41
  | .Green => 42
  | .Yellow => 43
  | .Blue => 44
  | .Magenta => 45
  | .Cyan => 46
  | .White => 47
  | .HiBlack => 100
  | .HiRed => 101
  | .HiGreen => 102
  | .HiYellow => 103
  | .HiBlue => 104
  | .HiMagenta => 105
  | .HiCyan => 106
  | .HiWhite => 107

/-- Wrap text in an ANSI foreground escape sequence (close code 39). -/
def ansiFg (code : Nat) (text : String) : String :=
  "\x1b[" ++ toString code ++ "m" ++ text ++ "\x1b[39m"

/-- Wrap text in an ANSI background escape sequence (close code 49). -/
def ansiBg (code : Nat) (text : String) : String :=
  "\x1b[" ++ toString code ++ "m" ++ text ++ "\x1b[49m"

/-- The `ColorAttribute::apply` method (src/src/color.rs, lines 38-76):
`Reset` returns the text unstyled; every other variant styles via
`if_supports_color(stream, ..)`. `Logger::new` always sets the owo-colors
global override to the configured `coloured` flag, so support reduces to
that override (`ov`). -/
def ColorAttribute.apply (a : ColorAttribute) (text : String)
    (_stream : OutStream) (ov : Bool) : String :=
  match a with
  | .Reset => text
  | c => if ov then ansiFg c.fgCode text else text

/-- The `ColorAttribute::apply_bg` method (src/src/color.rs, lines 79-119). -/
def ColorAttribute.apply_bg (a : ColorAttribute) (text : String)
    (_stream : OutStream) (ov : Bool) : String :=
  match a with
  | .Reset => text
  | c => if ov then ansiBg c.bgCode text else text

/-- Foreground/background pair `twyg::Color` (src/src/color.rs). -/
structure Color where
  fg : ColorAttribute
  bg : ColorAttribute
deriving DecidableEq

/-- The `Color::apply` method (src/src/color.rs, lines 155-164): apply the
foreground, then the background only when it is not `Reset`. -/
def Color.apply (c : Color) (text : String) (stream : OutStream)
    (ov : Bool) : String :=
  let with_fg := c.fg.apply text stream ov
  if c.bg = ColorAttribute.Reset then with_fg
  else c.bg.apply_bg with_fg stream ov

/-- The 13-slot palette `twyg::Colors` (src/src/color.rs, lines 219-259);
every slot is independently nullable. -/
structure Colors where
  timestamp : Option Color
  level_trace : Option Color
  level_debug : Option Color
  level_info : Option Color
  level_warn : Option Color
  level_error : Option Color
  message : Option Color
  arrow : Option Color
  caller_file : Option Color
  caller_line : Option Color
  target : Option Color
  attr_key : Option Color
  attr_value : Option Color
deriving DecidableEq

/-- A palette with every slot unset, as used by the repository's own tests
(`empty_colors`). -/
def unsetColors : Colors :=
  { timestamp := none, level_trace := none, level_debug := none
    level_info := none, level_warn := none, level_error := none
    message := none, arrow := none, caller_file := none
    caller_line := none, target := none, attr_key := none
    attr_value := none }

/-- The `Colors::default` palette (src/src/color.rs, lines 261-280). -/
def defaultColors : Colors :=
  { timestamp := some ⟨.Green, .Reset⟩
    level_trace := some ⟨.HiBlue, .Reset⟩
    level_debug := some ⟨.Cyan, .Reset⟩
    level_info := some ⟨.HiGreen, .Reset⟩
    level_warn := some ⟨.HiYellow, .Reset⟩
    level_error := some ⟨.Red, .Reset⟩
    message := some ⟨.Green, .Reset⟩
    arrow := some ⟨.Cyan, .Reset⟩
    caller_file := some ⟨.HiYellow, .Reset⟩
    caller_line := some ⟨.HiYellow, .Reset⟩
    target := some ⟨.HiYellow, .Reset⟩
    attr_key := some ⟨.HiYellow, .Reset⟩
    attr_value := some ⟨.Cyan, .Reset⟩ }

/-- The `Colors::level_color` lookup (src/src/color.rs, lines 284-292):
each of the five event levels maps to its own independent slot. -/
def Colors.level_color (c : Colors) (level : Level) : Option Color :=
  match level with
  | .Error => c.level_error
  | .Warn => c.level_warn
  | .Info => c.level_info
  | .Debug => c.level_debug
  | .Trace => c.level_trace

/-- Padding side `twyg::PadSide` (src/src/opts.rs). -/
inductive PadSide where
  | Left
  | Right
deriving DecidableEq

/-- Internal logger configuration `LoggerConfig` (src/src/logger.rs,
lines 57-68). The timestamp format feeds chrono only and is therefore not
carried here (rendering takes the formatted timestamp as a parameter);
`colorOverride` records the owo-colors global override that `Logger::new`
sets to `opts.coloured()`. -/
structure LoggerConfig where
  stream : OutStream
  max_level : LevelFilter
  report_caller : Bool
  pad_level : Bool
  pad_amount : Nat
  pad_side : PadSide
  msg_separator : String
  arrow_char : String
  colors : Colors
  colorOverride : Bool
deriving DecidableEq

/-- Configuration options `twyg::Opts` (src/src/opts.rs), minus the
chrono-only timestamp format. -/
structure Opts where
  coloured : Bool
  output : Output
  level : LogLevel
  report_caller : Bool
  pad_level : Bool
  pad_amount : Nat
  pad_side : PadSide
  msg_separator : String
  arrow_char : String
  colors : Colors
deriving DecidableEq

/-- Construction of the internal configuration: `Logger::new` (src/src/
logger.rs, lines 441-444) sets the owo-colors global override to
`opts.coloured()`, and `TwygLogger::new` (lines 84-111) copies the
remaining fields from `Opts`. -/
def TwygLogger.newConfig (opts : Opts) : LoggerConfig :=
  { stream := opts.output.toStream
    max_level := opts.level.toLevelFilter
    report_caller := opts.report_caller
    pad_level := opts.pad_level
    pad_amount := opts.pad_amount
    pad_side := opts.pad_side
    msg_separator := opts.msg_separator
    arrow_char := opts.arrow_char
    colors := opts.colors
    colorOverride := opts.coloured }

/-- One `log::Record`: severity, target, pre-formatted message, optional
caller file and line, and the ordered key-value attribute pairs (each
already stringified, as `visit_pair` stringifies them on arrival). -/
structure Record where
  level : Level
  target : String
  message : String
  file : Option String
  line : Option Nat
  kvs : List (String × String)
deriving DecidableEq

/-- Helper `opt_str_or_placeholder` (src/src/logger.rs, lines 388-390). -/
def opt_str_or_placeholder (x : Option String) : String :=
  x.getD "??"

/-- Helper `opt_u32_or_placeholder` (src/src/logger.rs, lines 392-397). -/
def opt_u32_or_placeholder (x : Option Nat) : String :=
  match x with
  | none => "??"
  | some val => toString val

/-- A run of `n` spaces, as produced by Rust's width-padding format. -/
def spaces (n : Nat) : String :=
  String.mk (List.replicate n ' ')

/-- The `pad_level` helper (src/src/logger.rs, lines 399-405): Rust's
`format!("\x7b:>width$\x7d", ..)` treats the width as a minimum and pads
with spaces on the requested side. -/
def pad_level (level : String) (amount : Nat) (side : PadSide) : String :=
  match side with
  | .Left => spaces (amount - level.length) ++ level
  | .Right => level ++ spaces (amount - level.length)

/-- The `format_level` function (src/src/logger.rs, lines 407-431):
uppercase level text, optional padding, then the level's palette slot. -/
def format_level (level : Level) (colors : Colors) (pad : Bool)
    (pad_amount : Nat) (pad_side : PadSide) (stream : OutStream)
    (ov : Bool) : String :=
  let level_str := level.display
  let padded := if pad then pad_level level_str pad_amount pad_side
                else level_str
  match colors.level_color level with
  | some color => color.apply padded stream ov
  | none => padded

/-- The recurring source pattern
`slot.as_ref().map(|c| c.apply(text, stream)).unwrap_or(text)`. -/
def applySlot (slot : Option Color) (text : String) (stream : OutStream)
    (ov : Bool) : String :=
  match slot with
  | some c => c.apply text stream ov
  | none => text

/-- The visitor `KeyValueCollector` (src/src/logger.rs, lines 325-332). -/
structure KeyValueCollector where
  pairs : List (String × String)
deriving DecidableEq

/-- The `KeyValueCollector::new` constructor. -/
def KeyValueCollector.new : KeyValueCollector :=
  { pairs := [] }

/-- The `visit_pair` method (src/src/logger.rs, lines 374-384): push the
stringified pair at the end, preserving arrival order. -/
def visit_pair (c : KeyValueCollector) (kv : String × String) :
    KeyValueCollector :=
  { pairs := c.pairs ++ [kv] }

/-- The visit `record.key_values().visit(&mut kv_collector)`: the source
delivers the record's pairs in attachment order. -/
def collect (kvs : List (String × String)) : KeyValueCollector :=
  kvs.foldl visit_pair KeyValueCollector.new

/-- The `KeyValueCollector::format_pairs` method (src/src/logger.rs,
lines 339-372): empty list gives the empty string; otherwise each pair
renders as `key={value}` with the value wrapped in braces before color,
joined by comma-space and prefixed with the message separator. -/
def KeyValueCollector.format_pairs (c : KeyValueCollector)
    (config : LoggerConfig) : String :=
  if c.pairs.isEmpty then ""
  else
    let formatted := String.intercalate ", " (c.pairs.map (fun kv =>
      let key_colored := applySlot config.colors.attr_key kv.1
        config.stream config.colorOverride
      let value_with_braces := "\x7b" ++ kv.2 ++ "\x7d"
      let value_colored := applySlot config.colors.attr_value
        value_with_braces config.stream config.colorOverride
      key_colored ++ "=" ++ value_colored))
    config.msg_separator ++ formatted

/-- The `TwygLogger::enabled` check (src/src/logger.rs, lines 262-265):
`metadata.level() <= self.config.max_level` under the log crate's numeric
representations. -/
def enabled (max_level : LevelFilter) (level : Level) : Bool :=
  level.toNat ≤ max_level.toNat

/-- The filter behaviour induced by a configured `LogLevel` threshold:
`enabled` against `LevelFilter::from(opts.level())`. -/
def enabledFor (threshold : LogLevel) (level : Level) : Bool :=
  enabled threshold.toLevelFilter level

/-- One backing writer (stdout / stderr / buffered file handle): the bytes
written so far and the number of completed flushes. -/
structure WriterState where
  written : String
  flushes : Nat
deriving DecidableEq

/-- Result of `Mutex::lock`: either a clean guard or a poison error that
still carries the guard (`PoisonError::into_inner`). -/
inductive LockResult (α : Type) where
  | ok (guard : α)
  | poisoned (inner : α)

/-- The `TwygLogger::output_lock` method (src/src/logger.rs, lines 113-118):
`self.output.lock().unwrap_or_else(|e| e.into_inner())` — a poisoned lock
is recovered by taking the inner writer, never propagated. -/
def output_lock {α : Type} : LockResult α → α
  | .ok guard => guard
  | .poisoned inner => inner

/-- Acquire the output mutex whose poison flag is `b`, recovering via
`output_lock`. -/
def lockAcquire {α : Type} (b : Bool) (w : α) : α :=
  output_lock (if b then LockResult.poisoned w else LockResult.ok w)

/-- Whole-system state: the primary output writer behind the mutex (with
its poison flag and a count of lock acquisitions), and the process's
standard-error writer used by the fallback tier. -/
structure SysState where
  out : WriterState
  errOut : WriterState
  locks : Nat
  poisoned : Bool
deriving DecidableEq

/-- Forget the mutex poison flag (for comparing behaviours across it). -/
def SysState.clearPoison (s : SysState) : SysState :=
  { s with poisoned := false }

/-- The rendered line of `TwygLogger::write_log` (src/src/logger.rs,
lines 123-258), excluding the I/O: each field is colored through its own
palette slot and assembled into one of the two templates selected by
`report_caller`. The caller fragment `file:line` is styled as one unit
with the `caller_file` slot. -/
def render_line (config : LoggerConfig) (now : String) (record : Record) :
    String :=
  let level := format_level record.level config.colors config.pad_level
    config.pad_amount config.pad_side config.stream config.colorOverride
  let kv_collector := collect record.kvs
  let timestamp_colored := applySlot config.colors.timestamp now
    config.stream config.colorOverride
  let target_colored := applySlot config.colors.target record.target
    config.stream config.colorOverride
  let arrow_colored := applySlot config.colors.arrow config.arrow_char
    config.stream config.colorOverride
  let message_colored := applySlot config.colors.message record.message
    config.stream config.colorOverride
  let tail := kv_collector.format_pairs config
  if config.report_caller then
    let file := opt_str_or_placeholder record.file
    let line := opt_u32_or_placeholder record.line
    let caller_str := file ++ ":" ++ line
    let caller_colored := applySlot config.colors.caller_file caller_str
      config.stream config.colorOverride
    timestamp_colored ++ " " ++ level ++ " [" ++ caller_colored ++ " "
      ++ target_colored ++ "] " ++ arrow_colored ++ " "
      ++ message_colored ++ tail
  else
    timestamp_colored ++ " " ++ level ++ " [" ++ target_colored ++ "] "
      ++ arrow_colored ++ " " ++ message_colored ++ tail

/-- The `TwygLogger::write_log` method (src/src/logger.rs, lines 123-258):
acquire the output lock (recovering from poison), then write the rendered
line, a trailing newline, and flush. `pErr` injects the possible I/O
failure; the returned pair is the state after the call plus the error, if
any. -/
def write_log (config : LoggerConfig) (now : String) (record : Record)
    (s : SysState) (pErr : Option String) : SysState × Option String :=
  let writer := lockAcquire s.poisoned s.out
  let s1 : SysState := { s with locks := s.locks + 1 }
  match pErr with
  | some e => (s1, some e)
  | none =>
    ({ s1 with out := { written := writer.written
                          ++ render_line config now record ++ "\n"
                        flushes := writer.flushes + 1 } }, none)

/-- Outcome of one `log` call: the call returns (with the new system
state) — it has no error channel to the caller — or the process panics
carrying the stderr error, the primary error, and the original record. -/
inductive LogOutcome where
  | returned (s : SysState)
  | panicked (stderr_err : String) (primary_err : String) (record : Record)
deriving DecidableEq

/-- Forget the mutex poison flag inside an outcome. -/
def LogOutcome.clearPoison : LogOutcome → LogOutcome
  | .returned s => .returned s.clearPoison
  | o => o

/-- The `backup_to_stderr` fallback (src/src/logger.rs, lines 298-318):
write a compact line with the primary error, the record's level and its
raw message to the process's standard error (its own lock, not the output
sink's); panic with both errors and the record only if that write also
fails (`sErr`). -/
def backup_to_stderr (record : Record) (error : String) (s : SysState)
    (sErr : Option String) : LogOutcome :=
  let line := "[twyg error: " ++ error ++ "] " ++ record.level.display
    ++ " - " ++ record.message ++ "\n"
  match sErr with
  | none => .returned { s with errOut := { written := s.errOut.written ++ line
                                           flushes := s.errOut.flushes } }
  | some stderr_err => .panicked stderr_err error record

/-- The `fallback_on_error` wrapper (src/src/logger.rs, lines 285-293):
run the primary write; on error, fall back to stderr. -/
def fallback_on_error (config : LoggerConfig) (now : String)
    (record : Record) (s : SysState) (pErr sErr : Option String) :
    LogOutcome :=
  match write_log config now record s pErr with
  | (s1, none) => .returned s1
  | (s1, some error) => backup_to_stderr record error s1 sErr

/-- The `Log::log` entry point (src/src/logger.rs, lines 267-275): if the
record's level is not enabled, return immediately without touching any
state; otherwise run the tiered write path. -/
def log (config : LoggerConfig) (now : String) (record : Record)
    (s : SysState) (pErr sErr : Option String) : LogOutcome :=
  if enabled config.max_level record.level then
    fallback_on_error config now record s pErr sErr
  else
    .returned s

/-- The `Log::flush` entry point (src/src/logger.rs, lines 277-279):
flush the locked writer (poison recovered, result ignored). -/
def flush (s : SysState) : SysState :=
  let writer := lockAcquire s.poisoned s.out
  { s with locks := s.locks + 1
           out := { writer with flushes := writer.flushes + 1 } }

/-- Fold a sequence of `log` calls (each with its injected I/O outcomes)
over the system state; a panicked call contributes no state change. -/
def logAll (config : LoggerConfig) (now : String)
    (calls : List (Record × Option String × Option String))
    (s : SysState) : SysState :=
  calls.foldl (fun st c =>
    match log config now c.1 st c.2.1 c.2.2 with
    | .returned s1 => s1
    | .panicked _ _ _ => st) s

/-- Modelled from the spec: the Line Assembler's two fixed templates
(spec 4.4), selected by the caller-reporting flag, each field inserted
pre-rendered. Used to state the refinement claim about `write_log`. -/
def assemble_spec (ts level caller target arrow message tail : String)
    (withCaller : Bool) : String :=
  if withCaller then
    ts ++ " " ++ level ++ " [" ++ caller ++ " " ++ target ++ "] "
      ++ arrow ++ " " ++ message ++ tail
  else
    ts ++ " " ++ level ++ " [" ++ target ++ "] " ++ arrow ++ " "
      ++ message ++ tail

/-- Update only the caller-line palette slot of a configuration. -/
def withCallerLine (config : LoggerConfig) (v : Option Color) :
    LoggerConfig :=
  { config with colors := { config.colors with caller_line := v } }

/-- A sample configuration with threshold Trace (everything enabled),
caller reporting off, defaults for separator and arrow, colors unset. -/
def cfgW : LoggerConfig :=
  { stream := .Stdout, max_level := .Trace, report_caller := false
    pad_level := false, pad_amount := 5, pad_side := .Right
    msg_separator := ": ", arrow_char := "▶", colors := unsetColors
    colorOverride := false }

/-- A sample configuration with the default threshold Error. -/
def cfgE : LoggerConfig :=
  { cfgW with max_level := .Error }

/-- A sample record at Info. -/
def recW : Record :=
  { level := .Info, target := "svc", message := "hello"
    file := none, line := none, kvs := [] }

/-- A sample record at Trace. -/
def recT : Record :=
  { recW with level := .Trace }

/-- The initial system state: empty outputs, no lock acquisitions, clean
mutex. -/
def s0 : SysState :=
  { out := ⟨"", 0⟩, errOut := ⟨"", 0⟩, locks := 0, poisoned := false }

-- Helper lemmas shared by the claim theorems

theorem lockAcquire_eq {α : Type} (b : Bool) (w : α) : lockAcquire b w = w := by
  cases b <;> rfl

theorem log_rejected (config : LoggerConfig) (now : String) (record : Record)
    (s : SysState) (pErr sErr : Option String)
    (h : enabled config.max_level record.level = false) :
    log config now record s pErr sErr = .returned s := by
  simp [log, h]

theorem collect_pairs_aux (c : KeyValueCollector)
    (kvs : List (String × String)) :
    (kvs.foldl visit_pair c).pairs = c.pairs ++ kvs := by
  induction kvs generalizing c with
  | nil => simp
  | cons kv rest ih => simp [ih, visit_pair]

theorem collect_pairs (kvs : List (String × String)) :
    (collect kvs).pairs = kvs := by
  simp [collect, collect_pairs_aux, KeyValueCollector.new]

theorem spaces_length (n : Nat) : (spaces n).length = n := by
  simp [spaces, String.length]

theorem ColorAttribute.apply_disabled (a : ColorAttribute) (text : String)
    (st : OutStream) : a.apply text st false = text := by
  cases a <;> rfl

theorem ColorAttribute.apply_bg_disabled (a : ColorAttribute)
    (text : String) (st : OutStream) : a.apply_bg text st false = text := by
  cases a <;> rfl

theorem eq_brace_merge (t : String) :
    "=" ++ ("\x7b" ++ t) = "=\x7b" ++ t := by
  rw [← String.append_assoc]
  rfl

/-- C2: the severity filter query `enabled(L)` returns true exactly when
the event level `L` is at least as severe as the configured threshold `T`
under the ordering Trace < Debug < Info < Warn < Error (the ordering that
covers the five thresholds other than `Fatal`). -/
theorem c2_enabled_iff_severity (L : Level) (T : LogLevel)
    (hT : T ≠ LogLevel.Fatal) :
    enabledFor T L = true ↔ T.severity ≤ L.severity := by
  cases T
  case Fatal => exact (hT rfl).elim
  all_goals cases L <;> decide

/-- C2 witness: threshold Info, level Warn — enabled, and Warn is at least
as severe as Info. -/
theorem c2_witness :
    (LogLevel.Info ≠ LogLevel.Fatal) ∧
    (enabledFor LogLevel.Info Level.Warn = true ↔
      LogLevel.Info.severity ≤ Level.Warn.severity) :=
  ⟨by decide, c2_enabled_iff_severity Level.Warn LogLevel.Info (by decide)⟩

/-- C7 counterexample: the configured threshold enum `LogLevel` has six
values, not five, and the two distinct thresholds `Fatal` and `Error`
yield identical filtering behaviour on every event level. -/
theorem c7_counterexample :
    LogLevel.all.length = 6 ∧
    LogLevel.Fatal ≠ LogLevel.Error ∧
    (∀ L : Level, enabledFor LogLevel.Fatal L = enabledFor LogLevel.Error L) :=
  ⟨by decide, by decide, fun L => by cases L <;> rfl⟩

/-- C7 (amended): event severity (`log::Level`) is an enum of exactly five
values ordered Trace < Debug < Info < Warn < Error and the filter is
determined by this order; the configured threshold enum (`LogLevel`),
however, has six values, `Fatal` maps to the same `LevelFilter` as
`Error`, and two configured thresholds yield identical filtering
behaviour exactly when they map to the same `LevelFilter`. -/
theorem c7_amended_level_filter :
    (Level.all.length = 5 ∧ Level.all.Nodup) ∧
    (∀ L : Level, L ∈ Level.all) ∧
    (Level.Trace.severity < Level.Debug.severity ∧
      Level.Debug.severity < Level.Info.severity ∧
      Level.Info.severity < Level.Warn.severity ∧
      Level.Warn.severity < Level.Error.severity) ∧
    (∀ T ∈ LogLevel.all, ∀ L ∈ Level.all, T ≠ LogLevel.Fatal →
      (enabledFor T L = true ↔ T.severity ≤ L.severity)) ∧
    (LogLevel.all.length = 6 ∧
      LogLevel.Fatal.toLevelFilter = LogLevel.Error.toLevelFilter) ∧
    (∀ T1 ∈ LogLevel.all, ∀ T2 ∈ LogLevel.all,
      ((∀ L ∈ Level.all, enabledFor T1 L = enabledFor T2 L) ↔
        T1.toLevelFilter = T2.toLevelFilter)) := by
  refine ⟨by decide, fun L => by cases L <;> decide, by decide, by decide,
    by decide, by decide⟩

/-- C3: a rejected record leaves the whole system state (primary output,
fallback output, lock-acquisition count, mutex flag) completely unchanged,
for a single call and for any sequence of rejected calls. -/
theorem c3_rejected_frame (config : LoggerConfig) (now : String)
    (record : Record) (s : SysState)
    (hRej : enabled config.max_level record.level = false) :
    (∀ pErr sErr : Option String,
      log config now record s pErr sErr = .returned s) ∧
    (∀ calls : List (Record × Option String × Option String),
      (∀ c ∈ calls, enabled config.max_level c.1.level = false) →
      logAll config now calls s = s) := by
  refine ⟨fun pErr sErr => log_rejected config now record s pErr sErr hRej, ?_⟩
  intro calls
  induction calls with
  | nil => intro _; rfl
  | cons c rest ih =>
    intro h
    have hc : enabled config.max_level c.1.level = false := h c (by simp)
    have hrest := ih (fun x hx => h x (by simp [hx]))
    simp only [logAll, List.foldl_cons] at hrest ⊢
    simp only [log_rejected config now c.1 s c.2.1 c.2.2 hc]
    exact hrest

/-- C3 witness: with threshold Error, a Trace record (and a batch of three
Trace/Debug-level calls) leaves the state untouched. -/
theorem c3_witness :
    (enabled cfgE.max_level recT.level = false) ∧
    ((∀ pErr sErr : Option String,
        log cfgE "12:00" recT s0 pErr sErr = .returned s0) ∧
      (∀ calls : List (Record × Option String × Option String),
        (∀ c ∈ calls, enabled cfgE.max_level c.1.level = false) →
        logAll cfgE "12:00" calls s0 = s0)) :=
  ⟨by decide, c3_rejected_frame cfgE "12:00" recT s0 (by decide)⟩

/-- C6: `pad_level` pads with spaces on the configured side up to the
configured width (never truncating), `format_level` ignores the padding
parameters entirely when the padding flag is off, and the INFO-at-width-7
examples come out as "INFO   " (right) and "   INFO" (left). -/
theorem c6_pad_level_correct :
    (∀ (s : String) (amount : Nat),
      pad_level s amount PadSide.Right = s ++ spaces (amount - s.length)) ∧
    (∀ (s : String) (amount : Nat),
      pad_level s amount PadSide.Left = spaces (amount - s.length) ++ s) ∧
    (∀ (s : String) (amount : Nat) (side : PadSide),
      (pad_level s amount side).length = max s.length amount) ∧
    (∀ (level : Level) (colors : Colors) (a a2 : Nat)
        (side side2 : PadSide) (st : OutStream) (ov : Bool),
      format_level level colors false a side st ov
        = format_level level colors false a2 side2 st ov) ∧
    pad_level "INFO" 7 PadSide.Right = "INFO   " ∧
    pad_level "INFO" 7 PadSide.Left = "   INFO" ∧
    format_level Level.Info unsetColors true 7 PadSide.Right
      OutStream.Stdout true = "INFO   " ∧
    format_level Level.Info unsetColors true 7 PadSide.Left
      OutStream.Stdout true = "   INFO" := by
  refine ⟨fun s a => rfl, fun s a => rfl, ?_, ?_, by decide, by decide,
    by decide, by decide⟩
  · intro s a side
    cases side <;>
      simp [pad_level, String.length_append, spaces_length] <;> omega
  · intro level colors a a2 side side2 st ov
    rfl

/-- C8: an unset palette slot renders the field exactly as the unstyled
input text; with the global color mode disabled (the owo-colors override
that `Logger::new` sets from `opts.coloured()`), every field renders
unstyled even when its slot is set. -/
theorem c8_color_policy :
    (∀ (text : String) (st : OutStream) (ov : Bool),
      applySlot none text st ov = text) ∧
    (∀ (slot : Option Color) (text : String) (st : OutStream),
      applySlot slot text st false = text) ∧
    (∀ opts : Opts, (TwygLogger.newConfig opts).colorOverride
      = opts.coloured) := by
  refine ⟨fun text st ov => rfl, ?_, fun opts => rfl⟩
  intro slot text st
  cases slot with
  | none => rfl
  | some c =>
    simp [applySlot, Color.apply, ColorAttribute.apply_disabled,
      ColorAttribute.apply_bg_disabled]

/-- C9: lock acquisition never fails or panics on a poisoned mutex — the
guard is recovered in both the clean and the poisoned case — and the
behaviour of `log` and `flush` is independent of whether the mutex was
poisoned by a previous writer. -/
theorem c9_poison_recovery :
    (∀ w : WriterState,
      output_lock (LockResult.ok w) = w ∧
      output_lock (LockResult.poisoned w) = w) ∧
    (∀ (b : Bool) (w : WriterState), lockAcquire b w = w) ∧
    (∀ (config : LoggerConfig) (now : String) (record : Record)
        (s : SysState) (pErr sErr : Option String),
      (log config now record { s with poisoned := true } pErr sErr).clearPoison
        = (log config now record { s with poisoned := false }
            pErr sErr).clearPoison) ∧
    (∀ s : SysState,
      (flush { s with poisoned := true }).clearPoison
        = (flush { s with poisoned := false }).clearPoison) := by
  refine ⟨fun w => ⟨rfl, rfl⟩, fun b w => lockAcquire_eq b w, ?_, ?_⟩
  · intro config now record s pErr sErr
    cases hE : enabled config.max_level record.level with
    | false =>
      simp [log, hE, LogOutcome.clearPoison, SysState.clearPoison]
    | true =>
      cases pErr with
      | none =>
        simp [log, hE, fallback_on_error, write_log, lockAcquire,
          output_lock, LogOutcome.clearPoison, SysState.clearPoison]
      | some e =>
        cases sErr <;>
          simp [log, hE, fallback_on_error, write_log, backup_to_stderr,
            lockAcquire, output_lock, LogOutcome.clearPoison,
            SysState.clearPoison]
  · intro s
    simp [flush, lockAcquire, output_lock, SysState.clearPoison]

/-- C10: two configurations differing only in the caller-line palette slot
produce the identical rendered line and the identical `log` behaviour —
the caller fragment is styled as one unit with the caller-file slot and
the caller-line slot is never read. -/
theorem c10_caller_line_unused (config : LoggerConfig)
    (v1 v2 : Option Color) (now : String) (record : Record) (s : SysState)
    (pErr sErr : Option String) :
    render_line (withCallerLine config v1) now record
      = render_line (withCallerLine config v2) now record ∧
    log (withCallerLine config v1) now record s pErr sErr
      = log (withCallerLine config v2) now record s pErr sErr :=
  ⟨rfl, rfl⟩

/-- C1: for an accepted record, a primary I/O failure produces the compact
fallback line `[twyg error: <err>] <LEVEL> - <message>` on standard error
and `log` still returns; `log` panics only when that stderr write also
fails, and then it carries the stderr error, the primary error, and the
original record — it never returns an error to its caller. -/
theorem c1_tiered_fallback (config : LoggerConfig) (now : String)
    (record : Record) (s : SysState)
    (hEn : enabled config.max_level record.level = true) :
    (∀ e : String, log config now record s (some e) none =
      .returned { s with
        locks := s.locks + 1
        errOut := { written := s.errOut.written ++ "[twyg error: " ++ e
                      ++ "] " ++ record.level.display ++ " - "
                      ++ record.message ++ "\n"
                    flushes := s.errOut.flushes } }) ∧
    (∀ e e2 : String, log config now record s (some e) (some e2)
      = .panicked e2 e record) ∧
    (∀ (pErr sErr : Option String) (e1 e2 : String) (r : Record),
      log config now record s pErr sErr = .panicked e1 e2 r →
      pErr = some e2 ∧ sErr = some e1 ∧ r = record) := by
  refine ⟨?_, ?_, ?_⟩
  · intro e
    simp [log, hEn, fallback_on_error, write_log, backup_to_stderr,
      lockAcquire_eq, String.append_assoc]
  · intro e e2
    simp [log, hEn, fallback_on_error, write_log, backup_to_stderr,
      lockAcquire_eq]
  · intro pErr sErr e1 e2 r h
    cases pErr with
    | none =>
      simp [log, hEn, fallback_on_error, write_log, lockAcquire_eq] at h
    | some e =>
      cases sErr with
      | none =>
        simp [log, hEn, fallback_on_error, write_log, backup_to_stderr,
          lockAcquire_eq] at h
      | some e2b =>
        simp only [log, hEn, if_true, fallback_on_error, write_log,
          backup_to_stderr, lockAcquire_eq] at h
        obtain ⟨h1, h2, h3⟩ := LogOutcome.panicked.inj h
        exact ⟨by rw [h2], by rw [h1], h3.symm⟩

/-- C1 witness: the contract instantiated at a concrete enabled record. -/
theorem c1_witness :
    (enabled cfgW.max_level recW.level = true) ∧
    ((∀ e : String, log cfgW "12:00" recW s0 (some e) none =
        .returned { s0 with
          locks := s0.locks + 1
          errOut := { written := s0.errOut.written ++ "[twyg error: " ++ e
                        ++ "] " ++ recW.level.display ++ " - "
                        ++ recW.message ++ "\n"
                      flushes := s0.errOut.flushes } }) ∧
      (∀ e e2 : String, log cfgW "12:00" recW s0 (some e) (some e2)
        = .panicked e2 e recW) ∧
      (∀ (pErr sErr : Option String) (e1 e2 : String) (r : Record),
        log cfgW "12:00" recW s0 pErr sErr = .panicked e1 e2 r →
        pErr = some e2 ∧ sErr = some e1 ∧ r = recW)) :=
  ⟨by decide, c1_tiered_fallback cfgW "12:00" recW s0 (by decide)⟩

/-- C4: with the attribute color slots unset, the attribute tail is empty
for an empty list (no separator emitted); otherwise each pair renders as
`key={value}`, joined with comma-space and prefixed with the configured
message separator; pairs keep attachment order and duplicates; and with
the default separator the example (a,1),(b,2),(a,3) renders exactly
`: a={1}, b={2}, a={3}`. -/
theorem c4_attr_tail (config : LoggerConfig)
    (hk : config.colors.attr_key = none)
    (hv : config.colors.attr_value = none) :
    (KeyValueCollector.new.format_pairs config = "") ∧
    (∀ kvs : List (String × String), (collect kvs).pairs = kvs) ∧
    (∀ kvs : List (String × String), kvs ≠ [] →
      (collect kvs).format_pairs config = config.msg_separator
        ++ String.intercalate ", " (kvs.map (fun kv =>
            kv.1 ++ "=" ++ "\x7b" ++ kv.2 ++ "\x7d"))) ∧
    (config.msg_separator = ": " →
      (collect [("a", "1"), ("b", "2"), ("a", "3")]).format_pairs config
        = ": a=\x7b1\x7d, b=\x7b2\x7d, a=\x7b3\x7d") := by
  have key : ∀ kvs : List (String × String), kvs ≠ [] →
      (collect kvs).format_pairs config = config.msg_separator
        ++ String.intercalate ", " (kvs.map (fun kv =>
            kv.1 ++ "=" ++ "\x7b" ++ kv.2 ++ "\x7d")) := by
    intro kvs hne
    cases kvs with
    | nil => exact absurd rfl hne
    | cons kv rest =>
      simp [KeyValueCollector.format_pairs, collect_pairs, hk, hv,
        applySlot, String.append_assoc, eq_brace_merge]
  refine ⟨rfl, collect_pairs, key, ?_⟩
  intro hsep
  rw [key _ (by decide), hsep]
  decide

/-- C4 witness: the contract instantiated at the sample configuration with
unset colors and the default separator. -/
theorem c4_witness :
    (cfgW.colors.attr_key = none ∧ cfgW.colors.attr_value = none) ∧
    ((KeyValueCollector.new.format_pairs cfgW = "") ∧
      (∀ kvs : List (String × String), (collect kvs).pairs = kvs) ∧
      (∀ kvs : List (String × String), kvs ≠ [] →
        (collect kvs).format_pairs cfgW = cfgW.msg_separator
          ++ String.intercalate ", " (kvs.map (fun kv =>
              kv.1 ++ "=" ++ "\x7b" ++ kv.2 ++ "\x7d"))) ∧
      (cfgW.msg_separator = ": " →
        (collect [("a", "1"), ("b", "2"), ("a", "3")]).format_pairs cfgW
          = ": a=\x7b1\x7d, b=\x7b2\x7d, a=\x7b3\x7d")) :=
  ⟨⟨rfl, rfl⟩, c4_attr_tail cfgW rfl rfl⟩

/-- C5: for an accepted record with a successful primary write, `log`
appends to the output exactly one line following the template selected by
the caller-reporting flag (with the caller fragment `file:line` or the
`??` placeholders), terminated by a newline, and performs one synchronous
flush before returning. -/
theorem c5_line_templates (config : LoggerConfig) (now : String)
    (record : Record) (s : SysState) (sErr : Option String)
    (hEn : enabled config.max_level record.level = true) :
    log config now record s none sErr =
      .returned { s with
        locks := s.locks + 1
        out := { written := s.out.written ++ assemble_spec
                     (applySlot config.colors.timestamp now config.stream
                       config.colorOverride)
                     (format_level record.level config.colors
                       config.pad_level config.pad_amount config.pad_side
                       config.stream config.colorOverride)
                     (applySlot config.colors.caller_file
                       (opt_str_or_placeholder record.file ++ ":"
                         ++ opt_u32_or_placeholder record.line)
                       config.stream config.colorOverride)
                     (applySlot config.colors.target record.target
                       config.stream config.colorOverride)
                     (applySlot config.colors.arrow config.arrow_char
                       config.stream config.colorOverride)
                     (applySlot config.colors.message record.message
                       config.stream config.colorOverride)
                     ((collect record.kvs).format_pairs config)
                     config.report_caller ++ "\n"
                 flushes := s.out.flushes + 1 } } := by
  cases hc : config.report_caller <;>
    simp [log, hEn, fallback_on_error, write_log, render_line,
      assemble_spec, lockAcquire_eq, hc, String.append_assoc]

/-- C5 witness: the template contract instantiated at a concrete enabled
record with the caller flag off. -/
theorem c5_witness :
    (enabled cfgW.max_level recW.level = true) ∧
    log cfgW "12:00" recW s0 none none =
      .returned { s0 with
        locks := s0.locks + 1
        out := { written := s0.out.written ++ assemble_spec
                     (applySlot cfgW.colors.timestamp "12:00" cfgW.stream
                       cfgW.colorOverride)
                     (format_level recW.level cfgW.colors cfgW.pad_level
                       cfgW.pad_amount cfgW.pad_side cfgW.stream
                       cfgW.colorOverride)
                     (applySlot cfgW.colors.caller_file
                       (opt_str_or_placeholder recW.file ++ ":"
                         ++ opt_u32_or_placeholder recW.line)
                       cfgW.stream cfgW.colorOverride)
                     (applySlot cfgW.colors.target recW.target cfgW.stream
                       cfgW.colorOverride)
                     (applySlot cfgW.colors.arrow cfgW.arrow_char
                       cfgW.stream cfgW.colorOverride)
                     (applySlot cfgW.colors.message recW.message
                       cfgW.stream cfgW.colorOverride)
                     ((collect recW.kvs).format_pairs cfgW)
                     cfgW.report_caller ++ "\n"
                 flushes := s0.out.flushes + 1 } } :=
  ⟨by decide, c5_line_templates cfgW "12:00" recW s0 none (by decide)⟩

end Twyg
